import Mathlib

/-!
# Verification of `scripts/jira_helper.py`

A shallow embedding of the Jira helper script. The script issues
synchronous HTTP requests; we model the network as explicit inputs:

* `fetch : Nat → Option Fields` — the result of `GET /rest/api/3/issue/{key}`
  for each candidate ticket number during enumeration (`none` models any
  exception: nonexistent ticket, network failure, auth failure — the code
  treats them all identically via a blanket `except`);
* `UpdateEnv` — the transitions `GET` response and the outcome of the
  transition `POST` for `update_status`;
* an `Option Fields` response for `get_ticket`.

Printed output is modelled as a `List String`, one element per `print` call
(so a leading `"\n"` in an element corresponds to Python's `f"\n..."`).
JSON values are modelled by the fields the script reads, with `Option`
marking absent keys; `status` is `Option (Option String)` because the code
reads `fields.get('status', {}).get('name', 'Unknown')`, and `assignee`
is `Option (Option (Option String))`: absent key / JSON null / object with
an optional `displayName` (the code's truthiness test on the object gives
"Unassigned" in every case where `displayName` is missing).
-/

namespace Jira

set_option maxRecDepth 8000

/-- A paragraph-content item of a structured (Atlassian document) description:
the code reads `item.get('type')` and `item.get('text', '')`. -/
structure DescItem where
  type : Option String
  text : Option String
deriving DecidableEq

/-- A block of a structured description: the code reads `block.get('type')`
and `block.get('content', [])`. -/
structure DescBlock where
  type : Option String
  content : List DescItem
deriving DecidableEq

/-- The issue fields the script reads from a `GET issue` response.
`description = none` models every case in which the code's
`if description and isinstance(description, dict)` test fails (key absent,
null, falsy, or not a dict); `some blocks` models a truthy dict whose
`content` defaults to `[]`. -/
structure Fields where
  summary : Option String
  status : Option (Option String)
  assignee : Option (Option (Option String))
  description : Option (List DescBlock)
deriving DecidableEq

/-- `fields.get('summary', 'No summary')`. -/
def effSummary (f : Fields) : String :=
  f.summary.getD "No summary"

/-- `fields.get('status', {}).get('name', 'Unknown')`. -/
def effStatus (f : Fields) : String :=
  match f.status with
  | none => "Unknown"
  | some n => n.getD "Unknown"

/-- `assignee.get('displayName', 'Unassigned') if assignee else 'Unassigned'`:
the display name when the assignee object carries one, else `"Unassigned"`
(an absent key yields the falsy `{}`, null is falsy, and an object without
`displayName` falls back to the default either way). -/
def assigneeName (a : Option (Option (Option String))) : String :=
  match a with
  | some (some (some d)) => d
  | _ => "Unassigned"

/-- `summary[:60] + ('...' if len(summary) > 60 else '')`. -/
def displaySummary (s : String) : String :=
  s.take 60 ++ (if s.length > 60 then "..." else "")

/-- The per-ticket record built inside `list_tickets`. The source dict holds
`key`, `summary`, `assignee`; `num` additionally records the numeric suffix
from which `key` was built — the source recomputes it for sorting as
`int(x['key'].split('-')[1])`, which equals `num` under the invariant that
the project prefix contains no hyphen. -/
structure Ticket where
  key : String
  num : Nat
  summary : String
  assignee : String
deriving DecidableEq

/-- The dict appended to `tickets_found[status]` for candidate `ticketId`. -/
def mkTicket (project : String) (ticketId : Nat) (f : Fields) : Ticket :=
  { key := project ++ "-" ++ toString ticketId
    num := ticketId
    summary := displaySummary (effSummary f)
    assignee := assigneeName f.assignee }

/-- `range(max_results, 0, -1)`: the candidate numbers `max_results, …, 1`. -/
def idsDesc (maxResults : Nat) : List Nat :=
  (List.range' 1 maxResults).reverse

/-- The `(status, ticket)` pairs produced by the enumeration loop, in loop
order; candidates whose request errors are skipped by the blanket `except`. -/
def fetchedTickets (project : String) (maxResults : Nat)
    (fetch : Nat → Option Fields) : List (String × Ticket) :=
  (idsDesc maxResults).filterMap fun i =>
    (fetch i).map fun f => (effStatus f, mkTicket project i f)

/-- One step of building the `tickets_found` dict: create the status entry if
absent, else append to the existing list (Python dicts preserve insertion
order; we model the dict as an insertion-ordered association list). -/
def addTicket (m : List (String × List Ticket)) (st : String) (t : Ticket) :
    List (String × List Ticket) :=
  if m.any fun p => p.1 == st then
    m.map fun p => if p.1 == st then (p.1, p.2 ++ [t]) else p
  else
    m ++ [(st, [t])]

/-- The `tickets_found` dict after the enumeration loop. -/
def ticketsFound (project : String) (maxResults : Nat)
    (fetch : Nat → Option Fields) : List (String × List Ticket) :=
  (fetchedTickets project maxResults fetch).foldl
    (fun m p => addTicket m p.1 p.2) []

/-- `status in tickets_found`. -/
def hasStatus (m : List (String × List Ticket)) (st : String) : Bool :=
  m.any fun p => p.1 == st

/-- `tickets_found[status]` (defaulting to `[]` when absent; the code only
indexes after the membership test). -/
def groupList (m : List (String × List Ticket)) (st : String) : List Ticket :=
  match m.find? fun p => p.1 == st with
  | some p => p.2
  | none => []

/-- The fixed preferred display order of statuses (`status_order`). -/
def statusOrder : List String :=
  ["Gathering Requirements", "Ready for Dev", "In Progress", "Ready for QA",
   "Client QA", "Ready for Deploy", "Done"]

/-- The statuses the display loop skips with `continue`. -/
def completedStatuses : List String :=
  ["Done", "Ready for Deploy"]

/-- `sorted(tickets, key=lambda x: int(x['key'].split('-')[1]), reverse=True)`:
a stable sort descending by numeric suffix (Python's `sorted` is stable, and
any stable sort computes the same list; we use insertion sort). -/
def sortDesc (ts : List Ticket) : List Ticket :=
  ts.insertionSort fun a b => b.num ≤ a.num

/-- The status sections the display loop prints, in `status_order` order:
a section appears iff its status is in `tickets_found` and is not a
completed status; its tickets are sorted descending by numeric suffix. -/
def listTicketsGroups (project : String) (maxResults : Nat)
    (fetch : Nat → Option Fields) : List (String × List Ticket) :=
  statusOrder.filterMap fun st =>
    if hasStatus (ticketsFound project maxResults fetch) st then
      if st ∈ completedStatuses then none
      else some (st, sortDesc (groupList (ticketsFound project maxResults fetch) st))
    else none

/-- A string of `n` copies of `c` (Python's `c * n`). -/
def repChar (c : Char) (n : Nat) : String :=
  String.mk (List.replicate n c)

/-- The line(s) printed for one ticket: key and summary, plus an assignee
line only when the assignee is not `"Unassigned"`. -/
def ticketLines (t : Ticket) : List String :=
  ("  " ++ t.key ++ ": " ++ t.summary) ::
    (if t.assignee ≠ "Unassigned" then ["    → Assignee: " ++ t.assignee] else [])

/-- The lines of one status section: header with ticket count, separator,
then each ticket's lines. -/
def groupLines (p : String × List Ticket) : List String :=
  ("\n[" ++ p.1 ++ "] (" ++ toString p.2.length ++ " tickets)") ::
    repChar '-' 70 :: ((p.2.map ticketLines).flatten)

/-- Everything `list_tickets` prints. -/
def listTicketsOutput (project : String) (maxResults : Nat)
    (fetch : Nat → Option Fields) : List String :=
  ("\n" ++ project ++ " Tickets:") :: repChar '=' 80 ::
    ((listTicketsGroups project maxResults fetch).map groupLines).flatten

/-- An available workflow transition as returned by the transitions query:
the code reads `transition['name']` and `transition['id']`. -/
structure Transition where
  name : String
  id : String
deriving DecidableEq

/-- The HTTP requests the script can issue. -/
inductive Request where
  | getIssue (key : String)
  | getTransitions (key : String)
  | postTransition (key : String) (transitionId : String)
deriving DecidableEq

/-- The network environment seen by `update_status`: the transitions `GET`
response (`none` models the request raising), with the exception text, and
whether the transition `POST` succeeds. -/
structure UpdateEnv where
  transitions : Option (List Transition)
  getErr : String
  postOk : Bool
  postErr : String

/-- What a call to `update_status` did: the requests it issued in order,
the lines it printed, and its return value. -/
structure UpdateResult where
  requests : List Request
  output : List String
  ret : Bool
deriving DecidableEq

/-- A single-quote character as a string (for building printed messages). -/
def squote : String :=
  String.mk [Char.ofNat 39]

/-- Python's `str.lower()`, modelled characterwise over the code points
(agrees with `String.toLower`). -/
def strLower (s : String) : String :=
  String.mk (s.data.map Char.toLower)

/-- The loop that finds the id of the first transition whose name matches
`new_status` case-insensitively (the code breaks at the first match). -/
def findTransitionId (ts : List Transition) (newStatus : String) : Option String :=
  (ts.find? fun t => strLower t.name == strLower newStatus).map fun t => t.id

/-- `"Status '{new_status}' not available"`. -/
def notAvailableMsg (newStatus : String) : String :=
  "Status " ++ squote ++ newStatus ++ squote ++ " not available"

/-- `JiraHelper.update_status`: fetch available transitions, match the
requested status case-insensitively, and only on a match issue the `POST`.
The Python guard is `if not transition_id:`, so a matched transition whose
id is the empty string (falsy) is also rejected. -/
def update_status (ticketKey newStatus : String) (env : UpdateEnv) : UpdateResult :=
  match env.transitions with
  | none =>
      { requests := [.getTransitions ticketKey]
        output := ["❌ Failed: " ++ env.getErr]
        ret := false }
  | some ts =>
      match findTransitionId ts newStatus with
      | none =>
          { requests := [.getTransitions ticketKey]
            output := [notAvailableMsg newStatus]
            ret := false }
      | some tid =>
          if tid = "" then
            { requests := [.getTransitions ticketKey]
              output := [notAvailableMsg newStatus]
              ret := false }
          else if env.postOk then
            { requests := [.getTransitions ticketKey, .postTransition ticketKey tid]
              output := ["✅ Updated " ++ ticketKey ++ " to " ++ newStatus]
              ret := true }
          else
            { requests := [.getTransitions ticketKey, .postTransition ticketKey tid]
              output := ["❌ Failed: " ++ env.postErr]
              ret := false }

/-- What a call to `get_ticket` did: the lines it printed and its return
value — the fetched data (modelled by its fields) on success, `none`
(Python `None`) on error. -/
structure GetResult where
  output : List String
  ret : Option Fields
deriving DecidableEq

/-- The description-printing walk: for a structured description, a
`"\nDescription:"` header then the text of every text-type item inside
every paragraph-type block; nothing otherwise. -/
def descriptionLines (desc : Option (List DescBlock)) : List String :=
  match desc with
  | none => []
  | some blocks =>
      "\nDescription:" ::
        ((blocks.map fun b =>
          if b.type == some "paragraph" then
            b.content.filterMap fun item =>
              if item.type == some "text" then some (item.text.getD "") else none
          else []).flatten)

/-- `JiraHelper.get_ticket`: `resp` is the issue `GET` response (`none`
models the request raising, with exception text `errMsg`). -/
def get_ticket (ticketKey : String) (resp : Option Fields) (errMsg : String) :
    GetResult :=
  match resp with
  | none => { output := ["Error: " ++ errMsg], ret := none }
  | some f =>
      { output :=
          ("\n" ++ ticketKey ++ ": " ++ effSummary f) ::
          ("Status: " ++ effStatus f) ::
          ("Assignee: " ++ assigneeName f.assignee) ::
          descriptionLines f.description
        ret := some f }

/-- The operation the CLI dispatch hands to the helper. -/
inductive CliOp where
  | listTickets (project : String)
  | getTicket (key : String)
  | updateStatus (key newStatus : String)
deriving DecidableEq

/-- What the `__main__` block did: usage/error lines printed by the dispatch
itself, the process exit code, and the helper operation invoked (if any).
Constructing the helper (reading the credential file) is assumed to
succeed; its fatal failure is outside this model. -/
structure CliResult where
  output : List String
  exitCode : Nat
  op : Option CliOp
deriving DecidableEq

/-- The usage message printed when no command is given. -/
def usageLines : List String :=
  ["Usage:",
   "  python3 jira_helper.py list [PROJECT]",
   "  python3 jira_helper.py get TICKET-KEY",
   "  python3 jira_helper.py status TICKET-KEY NEW-STATUS"]

/-- The `__main__` dispatch over `sys.argv` (element 0 is the script name).
An `if/elif` chain with no `else`: an unrecognized command falls through,
printing nothing and exiting normally (code 0). -/
def mainDispatch (argv : List String) : CliResult :=
  if argv.length < 2 then
    { output := usageLines, exitCode := 1, op := none }
  else
    let command := argv.getD 1 ""
    if command = "list" then
      let project := if argv.length > 2 then argv.getD 2 "DXP" else "DXP"
      { output := [], exitCode := 0, op := some (.listTickets project) }
    else if command = "get" then
      if argv.length < 3 then
        { output := ["Please specify ticket key (e.g., DXP-28)"],
          exitCode := 1, op := none }
      else
        { output := [], exitCode := 0, op := some (.getTicket (argv.getD 2 "")) }
    else if command = "status" then
      if argv.length < 4 then
        { output := ["Usage: python3 jira_helper.py status TICKET-KEY NEW-STATUS"],
          exitCode := 1, op := none }
      else
        { output := [], exitCode := 0,
          op := some (.updateStatus (argv.getD 2 "") (argv.getD 3 "")) }
    else
      { output := [], exitCode := 0, op := none }

/-! ### Concrete sample inputs (used to instantiate the theorems) -/

/-- A ticket response with status `"Done"`. -/
def exDone : Fields :=
  ⟨some "Old task", some (some "Done"), none, none⟩

/-- A ticket response with status `"In Progress"` and no assignee. -/
def exInProgress : Fields :=
  ⟨some "Fix login bug", some (some "In Progress"), none, none⟩

/-- A ticket response with no status object. -/
def exNoStatus : Fields :=
  ⟨some "Mystery", none, none, none⟩

/-- The enumeration scenario network: DXP-1 is Done, DXP-2 is In Progress,
every other candidate's request errors. -/
def exFetch : Nat → Option Fields := fun i =>
  if i = 1 then some exDone else if i = 2 then some exInProgress else none

/-- A network where only DXP-2 (In Progress) and DXP-1 (no status) resolve. -/
def exFetch2 : Nat → Option Fields := fun i =>
  if i = 1 then some exNoStatus else if i = 2 then some exInProgress else none

/-- A network where DXP-1 and DXP-2 are both In Progress. -/
def exFetchTwo : Nat → Option Fields := fun i =>
  if i = 1 ∨ i = 2 then some exInProgress else none

/-- A ticket response whose summary is 70 characters long. -/
def exLong : Fields :=
  ⟨some (String.mk (List.replicate 70 'x')), some (some "In Progress"), none, none⟩

/-- A ticket response assigned to Bob. -/
def exAssigned : Fields :=
  ⟨some "Fix login bug", some (some "In Progress"),
   some (some (some "Bob")), none⟩

/-! ### Grouping lemmas

`tickets_found` is built by an insertion-ordered-dict fold; these lemmas
characterise each status's bucket as a filter of the enumeration stream. -/

theorem groupList_addTicket (m : List (String × List Ticket)) (st' st : String)
    (t : Ticket) :
    groupList (addTicket m st' t) st =
      if st' = st then groupList m st ++ [t] else groupList m st := by
  unfold addTicket groupList
  by_cases hany : (m.any fun p => p.1 == st') = true
  · rw [if_pos hany, List.find?_map]
    have hpred : ((fun p : String × List Ticket => p.1 == st) ∘
        fun p => if p.1 == st' then (p.1, p.2 ++ [t]) else p) =
        fun p : String × List Ticket => p.1 == st := by
      funext p
      by_cases h : p.1 = st' <;> simp [h]
    rw [hpred]
    rcases hfind : List.find? (fun p : String × List Ticket => p.1 == st) m with _ | q
    · by_cases hst : st' = st
      · subst hst
        rcases List.any_eq_true.mp hany with ⟨q, hq, hq'⟩
        exact absurd hq' (List.find?_eq_none.mp hfind q hq)
      · simp [hst]
    · have hq1 : q.1 = st := by simpa using List.find?_some hfind
      by_cases hst : st' = st
      · subst hst
        simp [hq1]
      · have hne : ¬q.1 = st' := by
          rw [hq1]
          exact fun h => hst h.symm
        simp [hst, hne]
  · rw [if_neg hany, List.find?_append]
    have hnone : List.find? (fun p : String × List Ticket => p.1 == st') m = none := by
      rw [List.find?_eq_none]
      intro x hx hc
      exact hany (List.any_eq_true.mpr ⟨x, hx, hc⟩)
    by_cases hst : st' = st
    · subst hst
      rw [hnone]
      simp
    · have h2 : List.find? (fun p : String × List Ticket => p.1 == st)
          ((st', [t]) :: []) = none := by
        simp [hst]
      rw [h2]
      simp [hst]

theorem groupList_foldl (l : List (String × Ticket))
    (m : List (String × List Ticket)) (st : String) :
    groupList (l.foldl (fun m p => addTicket m p.1 p.2) m) st =
      groupList m st ++ (l.filter fun q => q.1 == st).map fun q => q.2 := by
  induction l generalizing m with
  | nil => simp
  | cons q l ih =>
      rw [List.foldl_cons, ih, groupList_addTicket]
      by_cases h : q.1 = st
      · simp [h, List.filter_cons]
      · have : (q.1 == st) = false := by simpa using h
        simp [h, List.filter_cons, this]

theorem groupList_ticketsFound (project : String) (maxResults : Nat)
    (fetch : Nat → Option Fields) (st : String) :
    groupList (ticketsFound project maxResults fetch) st =
      ((fetchedTickets project maxResults fetch).filter
        fun q => q.1 == st).map fun q => q.2 := by
  unfold ticketsFound
  rw [groupList_foldl]
  rfl

theorem mem_fetchedTickets (project : String) (maxResults : Nat)
    (fetch : Nat → Option Fields) (q : String × Ticket) :
    q ∈ fetchedTickets project maxResults fetch ↔
      ∃ i f, i ∈ idsDesc maxResults ∧ fetch i = some f ∧
        q = (effStatus f, mkTicket project i f) := by
  unfold fetchedTickets
  rw [List.mem_filterMap]
  constructor
  · rintro ⟨i, hi, hq⟩
    rcases Option.map_eq_some'.mp hq with ⟨f, hf, hq'⟩
    exact ⟨i, f, hi, hf, hq'.symm⟩
  · rintro ⟨i, f, hi, hf, hq⟩
    exact ⟨i, hi, by rw [hf, hq]; rfl⟩

theorem mem_sortDesc (ts : List Ticket) (t : Ticket) :
    t ∈ sortDesc ts ↔ t ∈ ts :=
  (List.perm_insertionSort _ ts).mem_iff

theorem sortDesc_pairwise_ge (ts : List Ticket) :
    (sortDesc ts).Pairwise fun a b => b.num ≤ a.num := by
  haveI : IsTotal Ticket fun a b => b.num ≤ a.num :=
    ⟨fun a b => Nat.le_total b.num a.num⟩
  haveI : IsTrans Ticket fun a b => b.num ≤ a.num :=
    ⟨fun _ _ _ hab hbc => Nat.le_trans hbc hab⟩
  exact List.sorted_insertionSort _ ts

theorem pairwise_fetchedTickets (project : String) (maxResults : Nat)
    (fetch : Nat → Option Fields) :
    (fetchedTickets project maxResults fetch).Pairwise
      fun a b => b.2.num < a.2.num := by
  unfold fetchedTickets
  rw [List.pairwise_filterMap]
  have hids : (idsDesc maxResults).Pairwise fun a b => b < a := by
    unfold idsDesc
    rw [List.pairwise_reverse]
    exact List.pairwise_lt_range' 1 maxResults
  refine hids.imp ?_
  intro a b h x hx y hy
  rcases Option.map_eq_some'.mp hx with ⟨f, _, hxf⟩
  rcases Option.map_eq_some'.mp hy with ⟨g, _, hyg⟩
  rw [← hxf, ← hyg]
  simpa [mkTicket] using h

theorem mem_groupList_ticketsFound {project : String} {maxResults : Nat}
    {fetch : Nat → Option Fields} {st : String} {t : Ticket}
    (ht : t ∈ groupList (ticketsFound project maxResults fetch) st) :
    ∃ i f, i ∈ idsDesc maxResults ∧ fetch i = some f ∧ effStatus f = st ∧
      t = mkTicket project i f := by
  rw [groupList_ticketsFound] at ht
  rcases List.mem_map.mp ht with ⟨q, hq, hqt⟩
  rcases List.mem_filter.mp hq with ⟨hqmem, hqst⟩
  rcases (mem_fetchedTickets _ _ _ _).mp hqmem with ⟨i, f, hi, hf, hq'⟩
  refine ⟨i, f, hi, hf, ?_, ?_⟩
  · have h1 : q.1 = st := by simpa using hqst
    rw [hq'] at h1
    exact h1
  · rw [hq'] at hqt
    exact hqt.symm

theorem mem_listTicketsGroups {project : String} {maxResults : Nat}
    {fetch : Nat → Option Fields} {st : String} {ts : List Ticket}
    (h : (st, ts) ∈ listTicketsGroups project maxResults fetch) :
    st ∈ statusOrder ∧ st ∉ completedStatuses ∧
      ts = sortDesc (groupList (ticketsFound project maxResults fetch) st) := by
  unfold listTicketsGroups at h
  rcases List.mem_filterMap.mp h with ⟨st0, hst0, hsome⟩
  by_cases h1 : hasStatus (ticketsFound project maxResults fetch) st0 = true
  · rw [if_pos h1] at hsome
    by_cases h2 : st0 ∈ completedStatuses
    · rw [if_pos h2] at hsome
      cases hsome
    · rw [if_neg h2] at hsome
      have h3 := Option.some.inj hsome
      have h4 : st0 = st := congrArg Prod.fst h3
      have h5 := congrArg Prod.snd h3
      subst h4
      exact ⟨hst0, h2, h5.symm⟩
  · rw [if_neg h1] at hsome
    cases hsome

theorem mem_groups_ticket {project : String} {maxResults : Nat}
    {fetch : Nat → Option Fields} {st : String} {ts : List Ticket} {t : Ticket}
    (hg : (st, ts) ∈ listTicketsGroups project maxResults fetch) (ht : t ∈ ts) :
    st ∈ statusOrder ∧ st ∉ completedStatuses ∧
      ∃ i f, fetch i = some f ∧ effStatus f = st ∧ t = mkTicket project i f := by
  obtain ⟨h1, h2, rfl⟩ := mem_listTicketsGroups hg
  rw [mem_sortDesc] at ht
  obtain ⟨i, f, _, hf, hst, hteq⟩ := mem_groupList_ticketsFound ht
  exact ⟨h1, h2, i, f, hf, hst, hteq⟩

theorem listed_ticket_status {project : String} {maxResults : Nat}
    {fetch : Nat → Option Fields} {i : Nat} {f : Fields} {st : String}
    {ts : List Ticket}
    (hf : fetch i = some f)
    (hg : (st, ts) ∈ listTicketsGroups project maxResults fetch)
    (ht : mkTicket project i f ∈ ts) :
    st = effStatus f ∧ st ∈ statusOrder ∧ st ∉ completedStatuses := by
  obtain ⟨h1, h2, j, g, hgj, hstj, heq⟩ := mem_groups_ticket hg ht
  have hij : i = j := congrArg Ticket.num heq
  subst hij
  rw [hf] at hgj
  obtain rfl : g = f := (Option.some.inj hgj).symm
  exact ⟨hstj.symm, h1, h2⟩

/-! ### The claims -/

/-- Claim C1: when the requested status name matches no transition returned
by the transitions query (case-insensitively, via `lower()`), `update_status`
issues only the transitions `GET` — no mutating `POST` — prints the
rejection message, and returns `False`, leaving the ticket's state
untouched by the client. -/
theorem updateStatusNoMatchNoPost (ticketKey newStatus : String)
    (env : UpdateEnv) (ts : List Transition)
    (hts : env.transitions = some ts)
    (hnm : ∀ t ∈ ts, strLower t.name ≠ strLower newStatus) :
    (update_status ticketKey newStatus env).requests =
        [Request.getTransitions ticketKey] ∧
    (update_status ticketKey newStatus env).output =
        [notAvailableMsg newStatus] ∧
    (update_status ticketKey newStatus env).ret = false := by
  have hfind : findTransitionId ts newStatus = none := by
    unfold findTransitionId
    have : List.find? (fun t => strLower t.name == strLower newStatus) ts = none := by
      rw [List.find?_eq_none]
      intro t htm hc
      exact hnm t htm (by simpa using hc)
    rw [this]
    rfl
  unfold update_status
  rw [hts]
  simp [hfind]

/-- Witness for C1 at a concrete environment with one transition `"Done"`
and the unmatched request `"Sleeping"`. -/
theorem updateStatusNoMatchNoPost_w :
    (update_status "DXP-2" "Sleeping"
        ⟨some [⟨"Done", "31"⟩], "net down", true, "post failed"⟩).requests =
      [Request.getTransitions "DXP-2"] ∧
    (update_status "DXP-2" "Sleeping"
        ⟨some [⟨"Done", "31"⟩], "net down", true, "post failed"⟩).output =
      [notAvailableMsg "Sleeping"] ∧
    (update_status "DXP-2" "Sleeping"
        ⟨some [⟨"Done", "31"⟩], "net down", true, "post failed"⟩).ret = false :=
  updateStatusNoMatchNoPost "DXP-2" "Sleeping" _ [⟨"Done", "31"⟩] rfl (by decide)

/-- Claim C2: the summary a listed ticket displays is the raw summary
truncated to its first 60 characters followed by `"..."` when the raw
summary is longer than 60 characters, and the raw summary unmodified
otherwise. -/
theorem listedSummaryTruncation (project : String) (ticketId : Nat) (f : Fields) :
    (60 < (effSummary f).length →
      (mkTicket project ticketId f).summary = (effSummary f).take 60 ++ "...") ∧
    ((effSummary f).length ≤ 60 →
      (mkTicket project ticketId f).summary = effSummary f) := by
  constructor
  · intro h
    simp [mkTicket, displaySummary, h]
  · intro h
    have h2 : ¬60 < (effSummary f).length := by omega
    simp only [mkTicket, displaySummary, h2, if_false]
    rw [String.append_empty, String.take_eq]
    have h3 : (effSummary f).data.take 60 = (effSummary f).data :=
      List.take_of_length_le (show (effSummary f).data.length ≤ 60 from h)
    rw [h3]

/-- Witness for C2: a short summary is shown unmodified; a 70-character
summary is truncated to 60 characters plus the marker. -/
theorem listedSummaryTruncation_w :
    (mkTicket "DXP" 2 exInProgress).summary = effSummary exInProgress ∧
    (mkTicket "DXP" 1 exLong).summary = (effSummary exLong).take 60 ++ "..." :=
  ⟨(listedSummaryTruncation "DXP" 2 exInProgress).2 (by decide),
   (listedSummaryTruncation "DXP" 1 exLong).1 (by decide)⟩

/-- Claim C3: a fetched ticket whose status is `"Done"` or
`"Ready for Deploy"` never appears in any status section of the `list`
output. -/
theorem completedNeverListed (project : String) (maxResults : Nat)
    (fetch : Nat → Option Fields) (i : Nat) (f : Fields)
    (hf : fetch i = some f)
    (hst : effStatus f = "Done" ∨ effStatus f = "Ready for Deploy") :
    ∀ st ts, (st, ts) ∈ listTicketsGroups project maxResults fetch →
      mkTicket project i f ∉ ts := by
  intro st ts hg ht
  obtain ⟨rfl, _, h3⟩ := listed_ticket_status hf hg ht
  apply h3
  rcases hst with h | h <;> rw [h] <;> simp [completedStatuses]

/-- Witness for C3: in the concrete scenario the Done ticket DXP-1 is not in
the displayed In Progress section. -/
theorem completedNeverListed_w :
    mkTicket "DXP" 1 exDone ∉ [mkTicket "DXP" 2 exInProgress] :=
  completedNeverListed "DXP" 3 exFetch 1 exDone rfl (Or.inl (by decide))
    "In Progress" [mkTicket "DXP" 2 exInProgress] (by decide)

/-- Claim C4: a fetched ticket whose status is not one of the seven names in
the fixed preferred-order list never appears in any status section of the
`list` output. -/
theorem outsideOrderNeverListed (project : String) (maxResults : Nat)
    (fetch : Nat → Option Fields) (i : Nat) (f : Fields)
    (hf : fetch i = some f)
    (hst : effStatus f ∉ statusOrder) :
    ∀ st ts, (st, ts) ∈ listTicketsGroups project maxResults fetch →
      mkTicket project i f ∉ ts := by
  intro st ts hg ht
  obtain ⟨rfl, h2, _⟩ := listed_ticket_status hf hg ht
  exact hst h2

/-- Witness for C4: the ticket with missing status (grouped as `"Unknown"`)
does not appear in the displayed In Progress section. -/
theorem outsideOrderNeverListed_w :
    mkTicket "DXP" 1 exNoStatus ∉ [mkTicket "DXP" 2 exInProgress] :=
  outsideOrderNeverListed "DXP" 3 exFetch2 1 exNoStatus rfl (by decide)
    "In Progress" [mkTicket "DXP" 2 exInProgress] (by decide)

/-- Claim C5: within every displayed status section, the tickets are in
strictly descending order of the numeric suffix of their keys. -/
theorem groupTicketsStrictlyDescending (project : String) (maxResults : Nat)
    (fetch : Nat → Option Fields) :
    ∀ st ts, (st, ts) ∈ listTicketsGroups project maxResults fetch →
      ts.Pairwise fun a b => b.num < a.num := by
  intro st ts hg
  obtain ⟨_, _, rfl⟩ := mem_listTicketsGroups hg
  have hgp : (groupList (ticketsFound project maxResults fetch) st).Pairwise
      fun a b => b.num < a.num := by
    rw [groupList_ticketsFound, List.pairwise_map]
    exact List.Pairwise.sublist (List.filter_sublist _)
      (pairwise_fetchedTickets project maxResults fetch)
  set g := groupList (ticketsFound project maxResults fetch) st
  have hle := sortDesc_pairwise_ge g
  have hnd : ((sortDesc g).map Ticket.num).Nodup := by
    have h1 : (g.map Ticket.num).Nodup := by
      refine List.pairwise_map.mpr ?_
      exact hgp.imp fun h => (Nat.ne_of_lt h).symm
    have hperm : List.Perm ((sortDesc g).map Ticket.num) (g.map Ticket.num) :=
      (List.perm_insertionSort _ g).map _
    exact hperm.nodup_iff.mpr h1
  have hne : (sortDesc g).Pairwise fun a b => a.num ≠ b.num :=
    List.pairwise_map.mp hnd
  exact (hle.and hne).imp fun h => Nat.lt_of_le_of_ne h.1 fun e => h.2 e.symm

/-- Witness for C5: a two-ticket In Progress section is strictly descending. -/
theorem groupTicketsStrictlyDescending_w :
    ([mkTicket "DXP" 2 exInProgress, mkTicket "DXP" 1 exInProgress] :
        List Ticket).Pairwise (fun a b => b.num < a.num) :=
  groupTicketsStrictlyDescending "DXP" 3 exFetchTwo "In Progress"
    [mkTicket "DXP" 2 exInProgress, mkTicket "DXP" 1 exInProgress] (by decide)

/-- Claim C6: on a successful fetch, `get_ticket` prints the assignee as
`"Unassigned"` when the assignee field is absent or null, and prints the
assignee's display name when one is present. -/
theorem getTicketAssigneeDisplay (ticketKey errMsg : String) (f : Fields) :
    (f.assignee = none ∨ f.assignee = some none →
      "Assignee: Unassigned" ∈ (get_ticket ticketKey (some f) errMsg).output) ∧
    (∀ d, f.assignee = some (some (some d)) →
      ("Assignee: " ++ d) ∈ (get_ticket ticketKey (some f) errMsg).output) := by
  constructor
  · rintro (h | h) <;> simp [get_ticket, assigneeName, h]
  · intro d h
    simp [get_ticket, assigneeName, h]

/-- Witness for C6 at a ticket without assignee and one assigned to Bob. -/
theorem getTicketAssigneeDisplay_w :
    "Assignee: Unassigned" ∈ (get_ticket "DXP-2" (some exInProgress) "err").output ∧
    ("Assignee: " ++ "Bob") ∈ (get_ticket "DXP-3" (some exAssigned) "err").output :=
  ⟨(getTicketAssigneeDisplay "DXP-2" "err" exInProgress).1 (Or.inl rfl),
   (getTicketAssigneeDisplay "DXP-3" "err" exAssigned).2 "Bob" rfl⟩

/-- Claim C7: on any error `get_ticket` prints a generic error message and
returns the empty result (`None`); on success it returns the fetched data
to the caller. (That it is the only operation returning fetched data is
visible in the embedding's types: `UpdateResult.ret` is a bare success
flag and `listTicketsOutput` yields only printed lines.) -/
theorem getTicketErrorAndReturn (ticketKey errMsg : String) :
    (get_ticket ticketKey none errMsg).output = ["Error: " ++ errMsg] ∧
    (get_ticket ticketKey none errMsg).ret = none ∧
    ∀ f, (get_ticket ticketKey (some f) errMsg).ret = some f :=
  ⟨rfl, rfl, fun _ => rfl⟩

/-- Claim C8: enumerating project `"DXP"` with `max_results = 3` where DXP-1
is Done, DXP-2 is In Progress and DXP-3's request errors produces exactly
one status section, headed `[In Progress] (1 tickets)`, containing only
DXP-2 — the erroring candidate is silently skipped and the Done ticket
hidden. -/
theorem enumerationScenario (f1 f2 : Fields)
    (h1 : effStatus f1 = "Done") (h2 : effStatus f2 = "In Progress") :
    listTicketsGroups "DXP" 3
        (fun i => if i = 1 then some f1 else if i = 2 then some f2 else none) =
      [("In Progress", [mkTicket "DXP" 2 f2])] ∧
    listTicketsOutput "DXP" 3
        (fun i => if i = 1 then some f1 else if i = 2 then some f2 else none) =
      ["\nDXP Tickets:", repChar '=' 80,
       "\n[In Progress] (1 tickets)", repChar '-' 70] ++
        ticketLines (mkTicket "DXP" 2 f2) := by
  have hfe : fetchedTickets "DXP" 3
      (fun i => if i = 1 then some f1 else if i = 2 then some f2 else none) =
      [(effStatus f2, mkTicket "DXP" 2 f2), (effStatus f1, mkTicket "DXP" 1 f1)] :=
    rfl
  have htf : ticketsFound "DXP" 3
      (fun i => if i = 1 then some f1 else if i = 2 then some f2 else none) =
      [("In Progress", [mkTicket "DXP" 2 f2]), ("Done", [mkTicket "DXP" 1 f1])] := by
    unfold ticketsFound
    rw [hfe, h1, h2]
    rfl
  have hg : listTicketsGroups "DXP" 3
      (fun i => if i = 1 then some f1 else if i = 2 then some f2 else none) =
      [("In Progress", [mkTicket "DXP" 2 f2])] := by
    unfold listTicketsGroups
    simp only [htf]
    rfl
  refine ⟨hg, ?_⟩
  unfold listTicketsOutput
  rw [hg]
  simp [groupLines]
  rfl

/-- Witness for C8 at concrete Done and In Progress responses. -/
theorem enumerationScenario_w :
    listTicketsGroups "DXP" 3 exFetch =
      [("In Progress", [mkTicket "DXP" 2 exInProgress])] ∧
    listTicketsOutput "DXP" 3 exFetch =
      ["\nDXP Tickets:", repChar '=' 80,
       "\n[In Progress] (1 tickets)", repChar '-' 70] ++
        ticketLines (mkTicket "DXP" 2 exInProgress) :=
  enumerationScenario exDone exInProgress (by decide) (by decide)

/-- Claim C9: invoked with a first argument that is none of `list`, `get`
or `status`, the CLI prints nothing, performs no operation, and exits
normally (code 0) — the `if/elif` chain simply falls through. -/
theorem unrecognizedCommandSilent (argv : List String)
    (hlen : ¬argv.length < 2)
    (h1 : argv.getD 1 "" ≠ "list") (h2 : argv.getD 1 "" ≠ "get")
    (h3 : argv.getD 1 "" ≠ "status") :
    mainDispatch argv = ⟨[], 0, none⟩ := by
  unfold mainDispatch
  rw [if_neg hlen]
  simp only [List.getD_eq_getElem?_getD] at h1 h2 h3
  simp [h1, h2, h3]

/-- Witness for C9 at the unrecognized command `"frobnicate"`. -/
theorem unrecognizedCommandSilent_w :
    mainDispatch ["jira_helper.py", "frobnicate"] = ⟨[], 0, none⟩ :=
  unrecognizedCommandSilent ["jira_helper.py", "frobnicate"]
    (by decide) (by decide) (by decide) (by decide)

/-- Claim C10 (implicit): a successful response lacking a status name is
grouped under the default `"Unknown"`: the ticket is stored in
`tickets_found` but, `"Unknown"` being outside the fixed order list, it
never appears in any displayed section. -/
theorem missingStatusDefaultsUnknown (project : String) (maxResults : Nat)
    (fetch : Nat → Option Fields) (i : Nat) (f : Fields)
    (hf : fetch i = some f) (hlo : 1 ≤ i) (hhi : i ≤ maxResults)
    (hst : f.status = none ∨ f.status = some none) :
    effStatus f = "Unknown" ∧
    mkTicket project i f ∈
      groupList (ticketsFound project maxResults fetch) "Unknown" ∧
    ∀ st ts, (st, ts) ∈ listTicketsGroups project maxResults fetch →
      mkTicket project i f ∉ ts := by
  have hu : effStatus f = "Unknown" := by
    rcases hst with h | h <;> simp [effStatus, h]
  refine ⟨hu, ?_, ?_⟩
  · rw [groupList_ticketsFound]
    refine List.mem_map.mpr ⟨("Unknown", mkTicket project i f), ?_, rfl⟩
    refine List.mem_filter.mpr ⟨?_, by simp⟩
    refine (mem_fetchedTickets _ _ _ _).mpr ⟨i, f, ?_, hf, by rw [hu]⟩
    unfold idsDesc
    rw [List.mem_reverse, List.mem_range']
    exact ⟨i - 1, by omega, by omega⟩
  · intro st ts hg ht
    obtain ⟨rfl, h2, _⟩ := listed_ticket_status hf hg ht
    rw [hu] at h2
    exact absurd h2 (by decide)

/-- Witness for C10: the status-less DXP-1 is stored under `"Unknown"` and
absent from the displayed In Progress section. -/
theorem missingStatusDefaultsUnknown_w :
    effStatus exNoStatus = "Unknown" ∧
    mkTicket "DXP" 1 exNoStatus ∈
      groupList (ticketsFound "DXP" 3 exFetch2) "Unknown" ∧
    mkTicket "DXP" 1 exNoStatus ∉ [mkTicket "DXP" 2 exInProgress] := by
  obtain ⟨a, b, c⟩ := missingStatusDefaultsUnknown "DXP" 3 exFetch2 1 exNoStatus
    rfl (by decide) (by decide) (Or.inl rfl)
  exact ⟨a, b, c "In Progress" [mkTicket "DXP" 2 exInProgress] (by decide)⟩

end Jira
